import Mathlib

/-!
Shallow embedding of the Word-of-the-Day tool server (src/index.ts).

The server exposes two operations over a tool-call protocol:
`get_word_definition` and `get_random_word`.  Each call validates its
arguments with a zod schema, performs at most one outbound HTTP GET to the
dictionary API, and formats the JSON payload into a text block.

Modelling decisions, each traced to the source:
* The single outbound fetch is modelled as an oracle value of type
  `HttpOutcome` passed to the operation: a network-level rejection, or a
  response with a status code, status text, and a body.  The body is either
  JSON that decoded to a value of the expected shape (possibly `null`,
  modelled as `Option`), or malformed JSON whose decode rejects.
* JavaScript exceptions are modelled as `Except String`, carrying the
  message of the thrown `Error`.  The dispatch handler catches them all and
  wraps the message as `"Error: {message}"` (index.ts lines 112-135).
* The TypeScript interfaces declare `phonetics`, `text` and `meanings` as
  required, but the runtime JSON is untyped; the code itself guards
  `entry.phonetics` at line 177 yet dereferences it unguarded at line 212,
  and filters `p.text` / `p.audio` by truthiness.  We therefore model
  `phonetic`, `phonetics`, `text`, `audio`, `origin` and the example field
  as `Option`, with JavaScript truthiness (undefined and `""` are falsy).
* The second component of each operation result counts outbound HTTP
  requests actually issued (0 when validation rejects before the fetch).
* `Math.random()` is idealised as a rational in `[0, 1)`; the float
  rounding of the original is not modelled.
-/

namespace WordOfTheDay

/-- JavaScript truthiness of an optional string: `undefined` and the empty
string are falsy, every other string is truthy. -/
def truthy : Option String → Bool
  | some s => s ≠ ""
  | none => false

/-- interface PhoneticInfo, index.ts lines 13-16.  The declared type makes
`text` required, but the code filters it by truthiness, so we keep it
optional to reflect the untyped runtime JSON. -/
structure PhoneticInfo where
  text : Option String
  audio : Option String
deriving DecidableEq, Repr

/-- interface Definition, index.ts lines 18-23.  The field named after a
reserved word of this language is renamed to `exampleSentence`. -/
structure Definition where
  definition : String
  exampleSentence : Option String
  synonyms : List String
  antonyms : List String
deriving DecidableEq, Repr

/-- interface Meaning, index.ts lines 25-28. -/
structure Meaning where
  partOfSpeech : String
  definitions : List Definition
deriving DecidableEq, Repr

/-- interface WordEntry, index.ts lines 30-36.  `phonetics` is declared
required in TypeScript but dereferenced from untyped JSON, so it is
optional here (`none` models an absent field). -/
structure WordEntry where
  word : String
  phonetic : Option String
  phonetics : Option (List PhoneticInfo)
  origin : Option String
  meanings : List Meaning
deriving DecidableEq, Repr

/-- One item of a tool response body: `{ type: 'text', text }`. -/
structure ContentItem where
  type : String
  text : String
deriving DecidableEq, Repr

/-- A successful protocol response: `{ content: [...] }`. -/
structure ToolResponse where
  content : List ContentItem
deriving DecidableEq, Repr

/-- The response shape every return site of the source constructs:
`{ content: [{ type: 'text', text: t }] }`. -/
def textResponse (t : String) : ToolResponse :=
  { content := [{ type := "text", text := t }] }

/-- Decoded JSON body of the dictionary API response: `response.json()`
either resolves to a value (`null` or an array of entries) or rejects. -/
inductive JsonBody where
  | decoded (data : Option (List WordEntry))
  | malformed (msg : String)
deriving DecidableEq, Repr

/-- Outcome of the single outbound `fetch`: the promise rejects with a
network-level error, or resolves to a response with status, status text
and a body. -/
inductive HttpOutcome where
  | networkError (msg : String)
  | response (status : Nat) (statusText : String) (body : JsonBody)
deriving DecidableEq, Repr

/-- `response.ok`: status in the inclusive range 200-299. -/
def respOk (status : Nat) : Bool :=
  200 ≤ status && status < 300

/-- Raw argument object of a tool call, before schema validation.  Both
zod schemas read from this shape; fields not mentioned by a schema are
ignored, as zod strips unknown keys. -/
structure RawArgs where
  word : Option String
  language : Option String
  difficulty : Option String
deriving DecidableEq, Repr

/-- GetDefinitionArgsSchema.parse, index.ts lines 39-42 and the destructure
at line 139: `word` must be a present string of length at least 1 (custom
zod message "Word cannot be empty"; zod reports "Required" when the field
is absent), `language` defaults to "en". -/
def parseGetDefinitionArgs (a : RawArgs) : Except String (String × String) :=
  match a.word with
  | none => .error "Required"
  | some w =>
    if w.length < 1 then .error "Word cannot be empty"
    else .ok (w, a.language.getD "en")

/-- The three difficulty tiers, index.ts line 45. -/
inductive Difficulty where
  | easy
  | medium
  | hard
deriving DecidableEq, Repr

/-- GetRandomWordArgsSchema.parse, index.ts lines 44-46 and the destructure
at line 238: `difficulty` must be one of the three enum members when
present and defaults to "medium" when absent. -/
def parseGetRandomArgs (a : RawArgs) : Except String Difficulty :=
  match a.difficulty with
  | none => .ok .medium
  | some "easy" => .ok .easy
  | some "medium" => .ok .medium
  | some "hard" => .ok .hard
  | some other =>
    .error ("Invalid enum value. Expected \x27easy\x27 | \x27medium\x27 | \x27hard\x27, received \x27"
      ++ other ++ "\x27")

/-- Messages of the two "no definition found" return sites.  HTTP 404
branch, index.ts line 150. -/
def noDef404 (word : String) : String :=
  "No definition found for \"" ++ word ++ "\". Please check the spelling or try a different word."

/-- Empty-result branch, index.ts line 165. -/
def noDefEmpty (word : String) : String :=
  "No definition found for \"" ++ word ++ "\"."

/-- Joined pronunciation texts, index.ts lines 178-181: keep the phonetics
whose `text` is truthy, project the texts, join with ", ". -/
def joinedPhoneticTexts (ps : List PhoneticInfo) : String :=
  String.intercalate ", " ((ps.filter (fun p => truthy p.text)).map (fun p => p.text.getD ""))

/-- Pronunciation section, index.ts lines 174-185: prefer a truthy
top-level `phonetic`; otherwise, when `phonetics` is present and
non-empty, emit the joined texts when that join is itself truthy. -/
def pronunciationSection (e : WordEntry) : String :=
  if truthy e.phonetic then
    "**Pronunciation:** " ++ e.phonetic.getD "" ++ "\n\n"
  else
    match e.phonetics with
    | some ps =>
      if ps.length > 0 then
        let phoneticTexts := joinedPhoneticTexts ps
        if phoneticTexts ≠ "" then "**Pronunciation:** " ++ phoneticTexts ++ "\n\n" else ""
      else ""
    | none => ""

/-- Origin section, index.ts lines 188-190. -/
def originSection (e : WordEntry) : String :=
  if truthy e.origin then "**Origin:** " ++ e.origin.getD "" ++ "\n\n" else ""

/-- One definition block with its 0-based index, index.ts lines 196-207. -/
def definitionBlock (defIndex : Nat) (d : Definition) : String :=
  "   " ++ toString (defIndex + 1) ++ ". " ++ d.definition ++ "\n"
  ++ (if truthy d.exampleSentence then
        "      *Example: \"" ++ d.exampleSentence.getD "" ++ "\"*\n" else "")
  ++ (if d.synonyms.length > 0 then
        "      *Synonyms: " ++ String.intercalate ", " d.synonyms ++ "*\n" else "")
  ++ (if d.antonyms.length > 0 then
        "      *Antonyms: " ++ String.intercalate ", " d.antonyms ++ "*\n" else "")

/-- One meaning block with its 0-based index, index.ts lines 194-209. -/
def meaningBlock (index : Nat) (m : Meaning) : String :=
  toString (index + 1) ++ ". **" ++ m.partOfSpeech ++ "**\n"
  ++ String.join (m.definitions.enum.map (fun p => definitionBlock p.1 p.2))
  ++ "\n"

/-- Meanings section, index.ts lines 193-209. -/
def meaningsSection (e : WordEntry) : String :=
  "**Meanings:**\n\n" ++ String.join (e.meanings.enum.map (fun p => meaningBlock p.1 p.2))

/-- Audio links, index.ts lines 212-215: filter by truthy `audio`, project,
and filter the projection by truthiness again (`filter(Boolean)`). -/
def audioLinks (ps : List PhoneticInfo) : List String :=
  ((ps.filter (fun p => truthy p.audio)).map (fun p => p.audio.getD "")).filter (fun s => s ≠ "")

/-- Audio section, index.ts lines 217-222. -/
def audioSection (ps : List PhoneticInfo) : String :=
  let links := audioLinks ps
  if links.length > 0 then
    "**Audio Pronunciation:**\n"
    ++ String.join (links.enum.map (fun p => toString (p.1 + 1) ++ ". " ++ p.2 ++ "\n"))
  else ""

/-- Message of the TypeError the Node runtime throws at index.ts line 212
when `entry.phonetics` is undefined. -/
def typeErrorFilterMsg : String :=
  "Cannot read properties of undefined (reading \x27filter\x27)"

/-- Formatting of the first entry, index.ts lines 171-222.  The
pronunciation step (line 177) guards `entry.phonetics`, but the audio step
(line 212) dereferences it unguarded, so an absent `phonetics` field makes
the whole formatting throw a TypeError; every earlier section is built
first and then discarded, which the error short-circuit reproduces. -/
def formatEntry (e : WordEntry) : Except String String :=
  match e.phonetics with
  | none => .error typeErrorFilterMsg
  | some ps =>
    .ok ("**" ++ e.word ++ "**\n\n"
      ++ pronunciationSection e
      ++ originSection e
      ++ meaningsSection e
      ++ audioSection ps)

/-- Body of the try block of getWordDefinition, index.ts lines 141-231:
one fetch, the not-ok branches (404, then throw), the decode, the
empty-result branch, and the formatting of the first entry. -/
def fetchAndFormat (word : String) (http : HttpOutcome) : Except String ToolResponse :=
  match http with
  | .networkError msg => .error msg
  | .response status statusText body =>
    if respOk status = false then
      if status = 404 then .ok (textResponse (noDef404 word))
      else .error ("Dictionary API error: " ++ toString status ++ " " ++ statusText)
    else
      match body with
      | .malformed msg => .error msg
      | .decoded none => .ok (textResponse (noDefEmpty word))
      | .decoded (some []) => .ok (textResponse (noDefEmpty word))
      | .decoded (some (entry :: _)) =>
        match formatEntry entry with
        | .ok text => .ok (textResponse text)
        | .error msg => .error msg

/-- getWordDefinition, index.ts lines 138-235.  Validation happens before
the try block, so its failure escapes unwrapped and no fetch is issued
(count 0).  Every failure inside the try block is caught at line 232 and
rethrown as `Failed to fetch definition for "{word}": {message}`.  The
parsed `language` only feeds the request URL, which the `http` oracle
abstracts, so it is unused here. -/
def getWordDefinition (args : RawArgs) (http : HttpOutcome) : Except String ToolResponse × Nat :=
  match parseGetDefinitionArgs args with
  | .error msg => (.error msg, 0)
  | .ok (word, _language) =>
    match fetchAndFormat word http with
    | .ok resp => (.ok resp, 1)
    | .error msg => (.error ("Failed to fetch definition for \"" ++ word ++ "\": " ++ msg), 1)

/-- Hardcoded word lists, index.ts lines 241-256. -/
def wordLists : Difficulty → List String
  | .easy =>
    ["happy", "house", "water", "light", "music", "friend", "smile", "peace",
     "dream", "heart", "love", "hope", "time", "life", "world", "nature"]
  | .medium =>
    ["serendipity", "eloquent", "resilient", "magnificent", "innovative",
     "perspective", "authentic", "curiosity", "adventure", "harmony",
     "wisdom", "courage", "gratitude", "compassion", "creativity", "balance"]
  | .hard =>
    ["ephemeral", "ubiquitous", "perspicacious", "surreptitious", "magnanimous",
     "obfuscate", "ameliorate", "propensity", "vicissitude", "perspicuity",
     "sesquipedalian", "grandiloquent", "pusillanimous", "truculent", "recalcitrant"]

/-- Math.floor(x * n) for the random draw x, index.ts line 259. -/
def selectIndex (x : ℚ) (n : ℕ) : ℕ :=
  ⌊x * (n : ℚ)⌋₊

/-- getRandomWord, index.ts lines 237-263: validate, pick the word at the
floored random index (out-of-range indexing, impossible for x in [0,1),
is modelled by the list default), and delegate to getWordDefinition with
language "en". -/
def getRandomWord (args : RawArgs) (x : ℚ) (http : HttpOutcome) :
    Except String ToolResponse × Nat :=
  match parseGetRandomArgs args with
  | .error msg => (.error msg, 0)
  | .ok difficulty =>
    let words := wordLists difficulty
    let randomWord := words.getD (selectIndex x words.length) ""
    getWordDefinition { word := some randomWord, language := some "en", difficulty := none } http

/-- The switch of the CallTool handler, index.ts lines 116-123, including
the unknown-tool throw. -/
def dispatchTool (name : String) (args : RawArgs) (x : ℚ) (http : HttpOutcome) :
    Except String ToolResponse × Nat :=
  if name = "get_word_definition" then getWordDefinition args http
  else if name = "get_random_word" then getRandomWord args x http
  else (.error ("Unknown tool: " ++ name), 0)

/-- The CallTool handler, index.ts lines 112-135: any failure of the
dispatched operation is caught and converted into a successful response
whose text is `Error: {message}`. -/
def handleCallTool (name : String) (args : RawArgs) (x : ℚ) (http : HttpOutcome) :
    ToolResponse × Nat :=
  match dispatchTool name args x http with
  | (.ok resp, n) => (resp, n)
  | (.error msg, n) => (textResponse ("Error: " ++ msg), n)

/-- Concrete entry used to evaluate the operations: the word hello with a
top-level phonetic and no further data. -/
def helloEntry : WordEntry :=
  { word := "hello", phonetic := some "/h/", phonetics := some [],
    origin := none, meanings := [] }

/-- Concrete homograph entry used as a discarded trailing entry. -/
def otherEntry : WordEntry :=
  { word := "other", phonetic := none, phonetics := some [],
    origin := none, meanings := [] }

/-- Concrete entry whose top-level phonetic is present but empty while the
phonetics list carries a non-empty text. -/
def entryPhoneticEmpty : WordEntry :=
  { word := "hello", phonetic := some "", phonetics := some [{ text := some "/h/", audio := none }],
    origin := none, meanings := [] }

/-- Concrete entry with a truthy top-level phonetic. -/
def entryTruthyPhonetic : WordEntry :=
  { word := "hello", phonetic := some "/p/", phonetics := none,
    origin := none, meanings := [] }

/-- Concrete phonetics list with two non-empty texts. -/
def phoneticsAB : List PhoneticInfo :=
  [{ text := some "/a/", audio := none }, { text := some "/b/", audio := none }]

/-- Concrete entry with no top-level phonetic and the two-text phonetics
list. -/
def entryJoinedPhonetics : WordEntry :=
  { word := "hello", phonetic := none, phonetics := some phoneticsAB,
    origin := none, meanings := [] }

/-- Concrete entry whose phonetics field is absent, triggering the
unguarded dereference at index.ts line 212. -/
def entryNoPhonetics : WordEntry :=
  { word := "hi", phonetic := none, phonetics := none,
    origin := none, meanings := [] }

/-- Characters of the first line of a text: everything before the first
newline. -/
def firstLineChars (s : String) : List Char :=
  s.data.takeWhile (fun c => c != '\n')

/-- Specification bundle for one getRandomWord call with parsed difficulty
d and random draw x: the sizes of the three tiers, the medium default for
absent difficulty, membership of the selected word in the tier list, exact
delegation to getWordDefinition with language en, and uniformity of the
selection (index k is chosen exactly on the half-open interval
[k/n, (k+1)/n) of draws, the same length 1/n for every k). -/
def RandomWordSpec (args : RawArgs) (d : Difficulty) (x : ℚ) (http : HttpOutcome) : Prop :=
  ((wordLists .easy).length = 16 ∧ (wordLists .medium).length = 16
    ∧ (wordLists .hard).length = 15)
  ∧ parseGetRandomArgs { word := none, language := none, difficulty := none } = .ok .medium
  ∧ (wordLists d).getD (selectIndex x (wordLists d).length) "" ∈ wordLists d
  ∧ getRandomWord args x http
      = getWordDefinition
          { word := some ((wordLists d).getD (selectIndex x (wordLists d).length) ""),
            language := some "en", difficulty := none } http
  ∧ ∀ k : ℕ, k < (wordLists d).length →
      (selectIndex x (wordLists d).length = k ↔
        (k : ℚ) / ((wordLists d).length : ℚ) ≤ x
          ∧ x < ((k : ℚ) + 1) / ((wordLists d).length : ℚ))

-- Equality of Except values is decidable when both component types have
-- decidable equality; needed to evaluate operation results on concrete inputs.
deriving instance DecidableEq for Except

/-- Validation succeeds exactly on a present, non-empty word, producing the
word and the defaulted language. -/
theorem parseGetDefinitionArgs_ok (w : String) (lang df : Option String)
    (hw : 1 ≤ w.length) :
    parseGetDefinitionArgs { word := some w, language := lang, difficulty := df }
      = .ok (w, lang.getD "en") := by
  simp only [parseGetDefinitionArgs]
  rw [if_neg (by omega)]

/-- Left cancellation for string concatenation, via the underlying
character lists. -/
theorem string_append_left_cancel {a b c : String} (h : a ++ b = a ++ c) : b = c := by
  have hd := congrArg String.data h
  simp only [String.data_append, List.append_right_inj] at hd
  exact String.ext hd

/-- Two strings whose first characters differ are different. -/
theorem string_ne_of_head {s t : String} {c d : Char} {ls lt : List Char}
    (hs : s.data = c :: ls) (ht : t.data = d :: lt) (h : c ≠ d) : s ≠ t := by
  intro he
  rw [he, ht] at hs
  injection hs with h1 _
  exact h h1.symm

/-- Character-list shape of the 404 message: it starts with the letter N. -/
theorem data_noDef404 (w : String) :
    (noDef404 w).data = 'N' :: ("o definition found for \"".data ++ (w.data
      ++ "\". Please check the spelling or try a different word.".data)) := by
  simp only [noDef404, String.data_append, List.append_assoc]
  rfl

/-- Character-list shape of the empty-result message: it starts with the
letter N. -/
theorem data_noDefEmpty (w : String) :
    (noDefEmpty w).data = 'N' :: ("o definition found for \"".data ++ (w.data
      ++ "\".".data)) := by
  simp only [noDefEmpty, String.data_append, List.append_assoc]
  rfl

/-- Character-list shape of an Error-prefixed text: it starts with the
letter E. -/
theorem data_error_prefixed (r : String) :
    ("Error: " ++ r).data = 'E' :: ("rror: ".data ++ r.data) := by
  simp only [String.data_append]
  rfl

/-- C8: calling get_word_definition with the empty-string word fails zod
validation with the custom validation message before the try block is
entered, so no outbound HTTP request is issued (fetch count 0) and the
result does not depend on the HTTP oracle at all. -/
theorem empty_word_fails_validation_before_fetch (lang df : Option String)
    (http : HttpOutcome) :
    getWordDefinition { word := some "", language := lang, difficulty := df } http
      = (.error "Word cannot be empty", 0) := rfl

/-- C10: on an HTTP 404 response the body is never read or decoded: the
result is the not-found message regardless of the body, so even a
malformed body produces no fetch error, and any two 404 responses that
differ only in their bodies are handled identically. -/
theorem http404_ignores_body (w : String) (lang df : Option String) (stT : String)
    (b1 b2 : JsonBody) (hw : 1 ≤ w.length) :
    getWordDefinition { word := some w, language := lang, difficulty := df }
        (.response 404 stT b1)
      = (.ok (textResponse (noDef404 w)), 1)
    ∧ getWordDefinition { word := some w, language := lang, difficulty := df }
        (.response 404 stT b1)
      = getWordDefinition { word := some w, language := lang, difficulty := df }
        (.response 404 stT b2) := by
  have h : ∀ b : JsonBody,
      getWordDefinition { word := some w, language := lang, difficulty := df }
        (.response 404 stT b) = (.ok (textResponse (noDef404 w)), 1) := by
    intro b
    simp [getWordDefinition, parseGetDefinitionArgs_ok w lang df hw, fetchAndFormat,
      show respOk 404 = false from rfl]
  exact ⟨h b1, (h b1).trans (h b2).symm⟩

/-- C10 witness: a 404 whose body is malformed JSON is handled exactly like
a 404 whose body decoded to null, and yields the not-found message. -/
theorem http404_ignores_body_witness :
    1 ≤ "hello".length
    ∧ (getWordDefinition { word := some "hello", language := none, difficulty := none }
        (.response 404 "Not Found" (.malformed "Unexpected end of JSON input"))
      = (.ok (textResponse (noDef404 "hello")), 1)
    ∧ getWordDefinition { word := some "hello", language := none, difficulty := none }
        (.response 404 "Not Found" (.malformed "Unexpected end of JSON input"))
      = getWordDefinition { word := some "hello", language := none, difficulty := none }
        (.response 404 "Not Found" (.decoded none))) :=
  ⟨by decide, http404_ignores_body "hello" none none "Not Found"
    (.malformed "Unexpected end of JSON input") (.decoded none) (by decide)⟩

/-- C7: for two successful responses (any 2xx status and status text) whose
decoded bodies share the same first entry, get_word_definition produces
identical results: everything beyond the first entry is discarded. -/
theorem output_depends_only_on_first_entry (w : String) (lang df : Option String)
    (e : WordEntry) (r1 r2 : List WordEntry) (st1 st2 : Nat) (stT1 stT2 : String)
    (hw : 1 ≤ w.length) (h1 : respOk st1 = true) (h2 : respOk st2 = true) :
    getWordDefinition { word := some w, language := lang, difficulty := df }
        (.response st1 stT1 (.decoded (some (e :: r1))))
      = getWordDefinition { word := some w, language := lang, difficulty := df }
        (.response st2 stT2 (.decoded (some (e :: r2)))) := by
  simp [getWordDefinition, parseGetDefinitionArgs_ok w lang df hw, fetchAndFormat, h1, h2]

/-- C7 witness: two successful responses with different statuses, status
texts and trailing entries but the same first entry give equal results. -/
theorem output_depends_only_on_first_entry_witness :
    1 ≤ "hello".length ∧ respOk 200 = true ∧ respOk 299 = true
    ∧ getWordDefinition { word := some "hello", language := none, difficulty := none }
        (.response 200 "OK" (.decoded (some [helloEntry])))
      = getWordDefinition { word := some "hello", language := none, difficulty := none }
        (.response 299 "Custom" (.decoded (some [helloEntry, otherEntry]))) :=
  ⟨by decide, rfl, rfl,
    output_depends_only_on_first_entry "hello" none none helloEntry
      [] [otherEntry] 200 299 "OK" "Custom" (by decide) rfl rfl⟩

/-- C2 counterexample: for the word hello, the text returned for an HTTP
404 differs from the text returned for a 2xx response whose body is the
empty array, so the two cases are not the same message and are
distinguishable by the caller. -/
theorem notFound404_vs_empty_differ :
    (getWordDefinition { word := some "hello", language := none, difficulty := none }
        (.response 404 "Not Found" (.decoded (some [])))).1
      ≠ (getWordDefinition { word := some "hello", language := none, difficulty := none }
        (.response 200 "OK" (.decoded (some [])))).1 := by decide

/-- C2 amended: both the HTTP 404 case and the 2xx empty-array case return
a normal (non-error) result whose text begins with the No-definition-found
sentence and never carries the Error prefix, but the 404 text additionally
appends a please-check-the-spelling sentence, so the two texts differ. -/
theorem notFound_messages_shape (w : String) (lang df : Option String)
    (stT1 stT2 : String) (b : JsonBody) (hw : 1 ≤ w.length) :
    (getWordDefinition { word := some w, language := lang, difficulty := df }
        (.response 404 stT1 b)).1 = .ok (textResponse (noDef404 w))
    ∧ (getWordDefinition { word := some w, language := lang, difficulty := df }
        (.response 200 stT2 (.decoded (some [])))).1 = .ok (textResponse (noDefEmpty w))
    ∧ (∀ r, noDef404 w ≠ "Error: " ++ r)
    ∧ (∀ r, noDefEmpty w ≠ "Error: " ++ r)
    ∧ noDef404 w ≠ noDefEmpty w := by
  refine ⟨?_, ?_, ?_, ?_, ?_⟩
  · simp [getWordDefinition, parseGetDefinitionArgs_ok w lang df hw, fetchAndFormat,
      show respOk 404 = false from rfl]
  · simp [getWordDefinition, parseGetDefinitionArgs_ok w lang df hw, fetchAndFormat,
      show respOk 200 = true from rfl]
  · intro r
    exact string_ne_of_head (data_noDef404 w) (data_error_prefixed r) (by decide)
  · intro r
    exact string_ne_of_head (data_noDefEmpty w) (data_error_prefixed r) (by decide)
  · intro he
    have h2 : ("\". Please check the spelling or try a different word." : String) = "\"." :=
      string_append_left_cancel (a := "No definition found for \"" ++ w) he
    exact absurd h2 (by decide)

/-- C2 amended witness: the two messages at the word hello, their exact
texts, and their difference. -/
theorem notFound_messages_shape_witness :
    1 ≤ "hello".length
    ∧ ((getWordDefinition { word := some "hello", language := none, difficulty := none }
        (.response 404 "Not Found" (.decoded none))).1 = .ok (textResponse (noDef404 "hello"))
    ∧ (getWordDefinition { word := some "hello", language := none, difficulty := none }
        (.response 200 "OK" (.decoded (some [])))).1 = .ok (textResponse (noDefEmpty "hello"))
    ∧ (∀ r, noDef404 "hello" ≠ "Error: " ++ r)
    ∧ (∀ r, noDefEmpty "hello" ≠ "Error: " ++ r)
    ∧ noDef404 "hello" ≠ noDefEmpty "hello") :=
  ⟨by decide, notFound_messages_shape "hello" none none "Not Found" "OK"
    (.decoded none) (by decide)⟩

/-- C3 counterexample: for the word hello and a 500 response, the surfaced
text is not the bare Dictionary-API-error text the claim states; it is
that text wrapped by the catch block of getWordDefinition. -/
theorem apiError_not_surfaced_bare :
    (handleCallTool "get_word_definition"
        { word := some "hello", language := none, difficulty := none } 0
        (.response 500 "Internal Server Error" (.decoded none))).1
      ≠ textResponse "Error: Dictionary API error: 500 Internal Server Error"
    ∧ (handleCallTool "get_word_definition"
        { word := some "hello", language := none, difficulty := none } 0
        (.response 500 "Internal Server Error" (.decoded none))).1
      = textResponse
          "Error: Failed to fetch definition for \"hello\": Dictionary API error: 500 Internal Server Error" := by
  decide

/-- C3 amended: on a non-2xx status other than 404, getWordDefinition
throws the Dictionary-API-error message carrying the status code and
status text, but its own catch block wraps that message, so the dispatch
layer surfaces the failure as
Error: Failed to fetch definition for "{word}": Dictionary API error: {status} {statusText}. -/
theorem apiError_wrapped_by_catch (w : String) (lang df : Option String) (x : ℚ)
    (st : Nat) (stT : String) (b : JsonBody)
    (hw : 1 ≤ w.length) (hnok : respOk st = false) (h404 : st ≠ 404) :
    fetchAndFormat w (.response st stT b)
      = .error ("Dictionary API error: " ++ toString st ++ " " ++ stT)
    ∧ getWordDefinition { word := some w, language := lang, difficulty := df }
        (.response st stT b)
      = (.error ("Failed to fetch definition for \"" ++ w ++ "\": "
          ++ ("Dictionary API error: " ++ toString st ++ " " ++ stT)), 1)
    ∧ handleCallTool "get_word_definition"
        { word := some w, language := lang, difficulty := df } x
        (.response st stT b)
      = (textResponse ("Error: " ++ ("Failed to fetch definition for \"" ++ w ++ "\": "
          ++ ("Dictionary API error: " ++ toString st ++ " " ++ stT))), 1) := by
  have hf : fetchAndFormat w (.response st stT b)
      = .error ("Dictionary API error: " ++ toString st ++ " " ++ stT) := by
    simp [fetchAndFormat, hnok, h404]
  have hg : getWordDefinition { word := some w, language := lang, difficulty := df }
      (.response st stT b)
      = (.error ("Failed to fetch definition for \"" ++ w ++ "\": "
          ++ ("Dictionary API error: " ++ toString st ++ " " ++ stT)), 1) := by
    simp [getWordDefinition, parseGetDefinitionArgs_ok w lang df hw, hf]
  refine ⟨hf, hg, ?_⟩
  simp [handleCallTool, dispatchTool, hg]

/-- C3 amended witness: the wrapped error at a concrete 500 response. -/
theorem apiError_wrapped_by_catch_witness :
    1 ≤ "hello".length ∧ respOk 500 = false ∧ (500 : Nat) ≠ 404
    ∧ (fetchAndFormat "hello" (.response 500 "Internal Server Error" (.decoded none))
      = .error ("Dictionary API error: " ++ toString (500 : Nat) ++ " " ++ "Internal Server Error")
    ∧ getWordDefinition { word := some "hello", language := none, difficulty := none }
        (.response 500 "Internal Server Error" (.decoded none))
      = (.error ("Failed to fetch definition for \"" ++ "hello" ++ "\": "
          ++ ("Dictionary API error: " ++ toString (500 : Nat) ++ " " ++ "Internal Server Error")), 1)
    ∧ handleCallTool "get_word_definition"
        { word := some "hello", language := none, difficulty := none } 0
        (.response 500 "Internal Server Error" (.decoded none))
      = (textResponse ("Error: " ++ ("Failed to fetch definition for \"" ++ "hello" ++ "\": "
          ++ ("Dictionary API error: " ++ toString (500 : Nat) ++ " " ++ "Internal Server Error"))), 1)) :=
  ⟨by decide, rfl, by decide,
    apiError_wrapped_by_catch "hello" none none 0 500 "Internal Server Error"
      (.decoded none) (by decide) rfl (by decide)⟩

/-- Every successful value of the try block is a single-text envelope. -/
theorem fetchAndFormat_ok_shape {w : String} {http : HttpOutcome} {r : ToolResponse}
    (h : fetchAndFormat w http = .ok r) : ∃ t, r = textResponse t := by
  unfold fetchAndFormat at h
  repeat' split at h
  all_goals first
    | (injection h with h1; exact ⟨_, h1.symm⟩)
    | simp_all

/-- Every successful value of getWordDefinition is a single-text
envelope. -/
theorem getWordDefinition_ok_shape {args : RawArgs} {http : HttpOutcome}
    {r : ToolResponse} {n : Nat} (h : getWordDefinition args http = (.ok r, n)) :
    ∃ t, r = textResponse t := by
  unfold getWordDefinition at h
  split at h
  next msg heq => simp at h
  next word lang heq =>
    split at h
    next resp heq2 =>
      rw [Prod.mk.injEq] at h
      obtain ⟨h1, -⟩ := h
      injection h1 with h1
      obtain ⟨t, ht⟩ := fetchAndFormat_ok_shape heq2
      exact ⟨t, h1 ▸ ht⟩
    next msg heq2 => simp at h

/-- Every successful value of getRandomWord is a single-text envelope. -/
theorem getRandomWord_ok_shape {args : RawArgs} {x : ℚ} {http : HttpOutcome}
    {r : ToolResponse} {n : Nat} (h : getRandomWord args x http = (.ok r, n)) :
    ∃ t, r = textResponse t := by
  unfold getRandomWord at h
  split at h
  next msg heq => simp at h
  next d heq => exact getWordDefinition_ok_shape h

/-- Every successful value of the dispatch switch is a single-text
envelope. -/
theorem dispatchTool_ok_shape {name : String} {args : RawArgs} {x : ℚ}
    {http : HttpOutcome} {r : ToolResponse} {n : Nat}
    (h : dispatchTool name args x http = (.ok r, n)) : ∃ t, r = textResponse t := by
  unfold dispatchTool at h
  split at h
  · exact getWordDefinition_ok_shape h
  · split at h
    · exact getRandomWord_ok_shape h
    · simp at h

/-- C1: for every tool name, argument object, random draw and HTTP outcome,
the dispatch handler returns a successful protocol response consisting of
a single text item, and whenever the dispatched operation fails with some
message, that text is exactly Error: followed by the message. -/
theorem dispatch_catches_all_failures (name : String) (args : RawArgs) (x : ℚ)
    (http : HttpOutcome) :
    (∃ t, (handleCallTool name args x http).1 = textResponse t)
    ∧ ∀ msg n, dispatchTool name args x http = (.error msg, n) →
        handleCallTool name args x http = (textResponse ("Error: " ++ msg), n) := by
  constructor
  · unfold handleCallTool
    cases hd : dispatchTool name args x http with
    | mk res cnt =>
      cases res with
      | ok r =>
        obtain ⟨t, ht⟩ := dispatchTool_ok_shape hd
        exact ⟨t, ht⟩
      | error m => exact ⟨"Error: " ++ m, rfl⟩
  · intro msg n hd
    unfold handleCallTool
    rw [hd]

/-- C1 witness: an unknown tool name makes the dispatch fail, and the
handler converts the failure into the successful Error-text envelope. -/
theorem dispatch_catches_all_failures_witness :
    dispatchTool "no_such_tool" { word := none, language := none, difficulty := none } 0
        (.networkError "offline")
      = (.error ("Unknown tool: " ++ "no_such_tool"), 0)
    ∧ handleCallTool "no_such_tool" { word := none, language := none, difficulty := none } 0
        (.networkError "offline")
      = (textResponse ("Error: " ++ ("Unknown tool: " ++ "no_such_tool")), 0) :=
  ⟨rfl, (dispatch_catches_all_failures "no_such_tool"
    { word := none, language := none, difficulty := none } 0 (.networkError "offline")).2
    ("Unknown tool: " ++ "no_such_tool") 0 rfl⟩

/-- C9: when the fetch succeeds with a 2xx status and the body decodes to a
non-empty array whose first entry has no phonetics field, the formatting
throws the TypeError of the unguarded dereference, the catch wraps it, and
the call is surfaced as an Error text even though HTTP and JSON decode
both succeeded; the pronunciation step, by contrast, guards the same field
and silently emits nothing. -/
theorem missing_phonetics_becomes_fetch_error (w : String) (lang df : Option String)
    (x : ℚ) (e : WordEntry) (rest : List WordEntry) (st : Nat) (stT : String)
    (hw : 1 ≤ w.length) (hph : e.phonetics = none) (hok : respOk st = true) :
    formatEntry e = .error typeErrorFilterMsg
    ∧ handleCallTool "get_word_definition"
        { word := some w, language := lang, difficulty := df } x
        (.response st stT (.decoded (some (e :: rest))))
      = (textResponse ("Error: " ++ ("Failed to fetch definition for \"" ++ w ++ "\": "
          ++ typeErrorFilterMsg)), 1)
    ∧ (truthy e.phonetic = false → pronunciationSection e = "") := by
  have hfe : formatEntry e = .error typeErrorFilterMsg := by
    unfold formatEntry
    rw [hph]
  refine ⟨hfe, ?_, ?_⟩
  · have hg : getWordDefinition { word := some w, language := lang, difficulty := df }
        (.response st stT (.decoded (some (e :: rest))))
        = (.error ("Failed to fetch definition for \"" ++ w ++ "\": " ++ typeErrorFilterMsg), 1) := by
      simp [getWordDefinition, parseGetDefinitionArgs_ok w lang df hw, fetchAndFormat, hok, hfe]
    simp [handleCallTool, dispatchTool, hg]
  · intro hf
    simp [pronunciationSection, hf, hph]

/-- C9 witness: the entry with an absent phonetics field at a concrete 200
response. -/
theorem missing_phonetics_becomes_fetch_error_witness :
    1 ≤ "hi".length ∧ entryNoPhonetics.phonetics = none ∧ respOk 200 = true
    ∧ (formatEntry entryNoPhonetics = .error typeErrorFilterMsg
    ∧ handleCallTool "get_word_definition"
        { word := some "hi", language := none, difficulty := none } 0
        (.response 200 "OK" (.decoded (some [entryNoPhonetics])))
      = (textResponse ("Error: " ++ ("Failed to fetch definition for \"" ++ "hi" ++ "\": "
          ++ typeErrorFilterMsg)), 1)
    ∧ (truthy entryNoPhonetics.phonetic = false → pronunciationSection entryNoPhonetics = "")) :=
  ⟨by decide, rfl, rfl,
    missing_phonetics_becomes_fetch_error "hi" none none 0 entryNoPhonetics [] 200 "OK"
      (by decide) rfl rfl⟩

/-- C5 counterexample: an entry whose top-level phonetic is present (the
empty string) does not get a pronunciation line showing that string; the
code treats the falsy value as absent and shows the joined phonetics texts
instead. -/
theorem present_empty_phonetic_not_shown :
    entryPhoneticEmpty.phonetic = some ""
    ∧ pronunciationSection entryPhoneticEmpty = "**Pronunciation:** /h/\n\n"
    ∧ pronunciationSection entryPhoneticEmpty ≠ "**Pronunciation:** " ++ "" ++ "\n\n" := by
  decide

/-- C5 amended: the pronunciation line prefers the top-level phonetic only
when it is present and non-empty (truthy); otherwise, when the phonetics
list is present, the line shows the non-empty texts joined with a comma
and a space, and is omitted entirely when that join is empty (including
when every text is empty or the list is empty). -/
theorem pronunciation_line_rule (e : WordEntry) (p : String) (ps : List PhoneticInfo) :
    (e.phonetic = some p → p ≠ "" →
      pronunciationSection e = "**Pronunciation:** " ++ p ++ "\n\n")
    ∧ (truthy e.phonetic = false → e.phonetics = some ps →
      pronunciationSection e =
        if joinedPhoneticTexts ps = "" then ""
        else "**Pronunciation:** " ++ joinedPhoneticTexts ps ++ "\n\n") := by
  constructor
  · intro hp hne
    simp [pronunciationSection, truthy, hp, hne]
  · intro hf hps
    simp only [pronunciationSection, hf, hps, Bool.false_eq_true, if_false]
    cases ps with
    | nil => decide
    | cons q qs =>
      simp only [List.length_cons, Nat.succ_sub_one, gt_iff_lt, Nat.zero_lt_succ, if_true]
      by_cases hj : joinedPhoneticTexts (q :: qs) = ""
      · simp [hj]
      · simp [hj]

/-- C5 amended witness: a truthy top-level phonetic wins; with no top-level
phonetic, the two texts are comma-joined. -/
theorem pronunciation_line_rule_witness :
    entryTruthyPhonetic.phonetic = some "/p/" ∧ "/p/" ≠ ""
    ∧ truthy entryJoinedPhonetics.phonetic = false
    ∧ entryJoinedPhonetics.phonetics = some phoneticsAB
    ∧ pronunciationSection entryTruthyPhonetic = "**Pronunciation:** " ++ "/p/" ++ "\n\n"
    ∧ pronunciationSection entryJoinedPhonetics =
        (if joinedPhoneticTexts phoneticsAB = "" then ""
         else "**Pronunciation:** " ++ joinedPhoneticTexts phoneticsAB ++ "\n\n") :=
  ⟨rfl, by decide, rfl, rfl,
    (pronunciation_line_rule entryTruthyPhonetic "/p/" []).1 rfl (by decide),
    (pronunciation_line_rule entryJoinedPhonetics "" phoneticsAB).2 rfl rfl⟩

/-- Taking up to the first newline distributes over a prefix that contains
no newline. -/
theorem takeWhile_noNl_append (l1 l2 : List Char)
    (h : ∀ c ∈ l1, (c != '\n') = true) :
    (l1 ++ l2).takeWhile (fun c => c != '\n')
      = l1 ++ l2.takeWhile (fun c => c != '\n') := by
  induction l1 with
  | nil => simp
  | cons a as ih =>
    simp only [List.cons_append, List.takeWhile_cons, h a (List.mem_cons_self a as)]
    simp [ih (fun c hc => h c (List.mem_cons_of_mem a hc))]

/-- C6: on a successful response with at least one entry whose formatting
succeeds, the first line of the produced text is exactly the word of the
first returned entry wrapped in double asterisks — the word the API
returned, not the word of the request. -/
theorem first_line_echoes_response_word (w : String) (lang df : Option String)
    (e : WordEntry) (rest : List WordEntry) (ps : List PhoneticInfo)
    (st : Nat) (stT : String)
    (hw : 1 ≤ w.length) (hok : respOk st = true) (hps : e.phonetics = some ps)
    (hnl : ∀ c ∈ e.word.data, c ≠ '\n') :
    ∃ t, (getWordDefinition { word := some w, language := lang, difficulty := df }
        (.response st stT (.decoded (some (e :: rest))))).1 = .ok (textResponse t)
      ∧ firstLineChars t = ("**" ++ e.word ++ "**").data := by
  have hfe : formatEntry e = .ok ("**" ++ e.word ++ "**\n\n"
      ++ pronunciationSection e ++ originSection e ++ meaningsSection e ++ audioSection ps) := by
    unfold formatEntry
    rw [hps]
  refine ⟨"**" ++ e.word ++ "**\n\n" ++ pronunciationSection e ++ originSection e
      ++ meaningsSection e ++ audioSection ps, ?_, ?_⟩
  · simp [getWordDefinition, parseGetDefinitionArgs_ok w lang df hw, fetchAndFormat, hok, hfe]
  · have hnl2 : ∀ c ∈ e.word.data, (c != '\n') = true := by
      intro c hc
      simpa [bne_iff_ne] using hnl c hc
    unfold firstLineChars
    simp only [String.data_append, List.append_assoc]
    rw [takeWhile_noNl_append ("**".data) _ (by decide)]
    rw [takeWhile_noNl_append e.word.data _ hnl2]
    rfl

/-- C6 witness: the formatted output for the entry hello has first line
double-asterisk hello double-asterisk. -/
theorem first_line_echoes_response_word_witness :
    1 ≤ "Hello".length ∧ respOk 200 = true ∧ helloEntry.phonetics = some []
    ∧ (∀ c ∈ helloEntry.word.data, c ≠ '\n')
    ∧ ∃ t, (getWordDefinition { word := some "Hello", language := none, difficulty := none }
        (.response 200 "OK" (.decoded (some [helloEntry])))).1 = .ok (textResponse t)
      ∧ firstLineChars t = ("**" ++ helloEntry.word ++ "**").data :=
  ⟨by decide, rfl, rfl, by decide,
    first_line_echoes_response_word "Hello" none none helloEntry [] [] 200 "OK"
      (by decide) rfl rfl (by decide)⟩

/-- C4: with a parsed difficulty tier (medium by default when absent) and
any draw x in [0,1), getRandomWord selects a member of the fixed tier list
(16 easy, 16 medium, 15 hard words), with the floored index uniform over
the list — index k is hit exactly on the interval [k/n, (k+1)/n) — and
returns exactly the result of getWordDefinition on the chosen word with
language en, with no formatting or error handling of its own. -/
theorem random_word_uniform_from_tier (args : RawArgs) (d : Difficulty) (x : ℚ)
    (http : HttpOutcome) (hd : parseGetRandomArgs args = .ok d)
    (h0 : 0 ≤ x) (h1 : x < 1) :
    RandomWordSpec args d x http := by
  have hn : 0 < (wordLists d).length := by cases d <;> decide
  have hnq : (0 : ℚ) < ((wordLists d).length : ℚ) := by exact_mod_cast hn
  have hxn : 0 ≤ x * ((wordLists d).length : ℚ) := mul_nonneg h0 hnq.le
  have hlt : x * ((wordLists d).length : ℚ) < ((wordLists d).length : ℚ) := by
    calc x * ((wordLists d).length : ℚ) < 1 * ((wordLists d).length : ℚ) :=
          mul_lt_mul_of_pos_right h1 hnq
      _ = ((wordLists d).length : ℚ) := one_mul _
  have hsel : selectIndex x (wordLists d).length < (wordLists d).length := by
    unfold selectIndex
    exact (Nat.floor_lt hxn).mpr hlt
  refine ⟨by decide, rfl, ?_, ?_, ?_⟩
  · simp only [List.getD_eq_getElem?_getD, List.getElem?_eq_getElem hsel, Option.getD_some]
    exact List.getElem_mem _
  · simp only [getRandomWord, hd]
  · intro k hk
    unfold selectIndex
    rw [Nat.floor_eq_iff hxn, div_le_iff₀ hnq, lt_div_iff₀ hnq]

/-- C4 witness: the draw 0 with an absent difficulty lands in the medium
tier and satisfies the whole bundle. -/
theorem random_word_uniform_from_tier_witness :
    parseGetRandomArgs { word := none, language := none, difficulty := none } = .ok .medium
    ∧ (0 : ℚ) ≤ 0 ∧ (0 : ℚ) < 1
    ∧ RandomWordSpec { word := none, language := none, difficulty := none } .medium 0
        (.response 404 "Not Found" (.decoded none)) :=
  ⟨rfl, le_refl 0, zero_lt_one,
    random_word_uniform_from_tier { word := none, language := none, difficulty := none }
      .medium 0 (.response 404 "Not Found" (.decoded none)) rfl (le_refl 0) zero_lt_one⟩

end WordOfTheDay
